import Mathlib

/-!
Verification development for `kubelet_stats_exporter/collector.py`
(`KubeletCollector`): a shallow embedding of the scrape-and-aggregate
pipeline, followed by theorems settling the specification claims.

Modelling conventions:
* JSON documents returned by the kubelet summary endpoint are modelled by
  the inductive `Json`; Python dict subscription, the `in` operator and the
  numeric coercion performed by `/` are modelled by `Json.index`,
  `Json.contains` and `Json.asNum`, with `none` / `.error` standing for a
  raised exception.
* Python numbers are modelled as rationals (`ℚ`).
* The thread pool in `collect` is determinised: per-node units run in
  submission order.  Each unit only appends samples whose labels are built
  from its own node/pod identity, so the properties proved below (which
  never depend on inter-node interleaving) are unaffected.
* `Except PyErr` models raised exceptions; the constructor records which
  Python exception class is raised.
-/

namespace KubeletStats

/-- A JSON value, as produced by `response.json()`. -/
inductive Json where
  | null : Json
  | bool (b : Bool) : Json
  | num (q : ℚ) : Json
  | str (s : String) : Json
  | arr (xs : List Json) : Json
  | obj (kvs : List (String × Json)) : Json

/-- The Python exceptions that the collector can raise. -/
inductive PyErr where
  | keyError : PyErr
  | typeError : PyErr
  | valueError : PyErr
  | unboundLocal : PyErr
  | jsonDecode : PyErr
deriving DecidableEq

/-- Python dict subscription `j[k]` with a string key: `some v` when `j` is
an object containing `k` (first binding wins), `none` when the subscription
raises (`KeyError` on an object without the key, `TypeError` otherwise). -/
def Json.index (j : Json) (k : String) : Option Json :=
  match j with
  | .obj kvs => (kvs.find? (fun p => p.1 == k)).map (fun p => p.2)
  | _ => none

/-- Naive substring test, used to model Python `k in s` on strings. -/
def strContainsSub (s t : String) : Bool :=
  (List.range (s.length + 1)).any (fun i => (s.toList.drop i).take t.length == t.toList)

/-- Python `k in j` for a string `k`: key membership on objects, element
membership on arrays, substring on strings; raises `TypeError` otherwise. -/
def Json.contains (j : Json) (k : String) : Except PyErr Bool :=
  match j with
  | .obj kvs => .ok (kvs.any (fun p => p.1 == k))
  | .arr xs => .ok (xs.any (fun x => match x with | .str s => s == k | _ => false))
  | .str s => .ok (strContainsSub s k)
  | _ => .error .typeError

/-- The numeric coercion Python's `/` performs on its left operand:
numbers evaluate to themselves, `True`/`False` to `1`/`0`, anything else
raises `TypeError`. -/
def Json.asNum (j : Json) : Except PyErr ℚ :=
  match j with
  | .num q => .ok q
  | .bool b => .ok (if b then 1 else 0)
  | _ => .error .typeError

/-- Function `KubeletCollector.to_cores`: divide by one billion to get cores. -/
def to_cores (nano_cores : ℚ) : ℚ := nano_cores / 1000000000

/-- The lookup chain `pod_id['ephemeral-storage']['usedBytes']` attempted in
`get_pod_metrics`; `none` means the chain raised (and is caught there). -/
def storageLookup (p : Json) : Option Json :=
  (p.index "ephemeral-storage").bind (fun e => e.index "usedBytes")

/-- The lookup chain `x['cpu']['usageNanoCores']`, used both at pod level and
per container; `none` means the chain raised. -/
def cpuLookup (p : Json) : Option Json :=
  (p.index "cpu").bind (fun e => e.index "usageNanoCores")

/-- Equality of Python dict keys among the hashable JSON values (Python
identifies `True` with `1` and compares numbers across int/float, which the
single rational constructor already merges). -/
def jkeyEq (a b : Json) : Bool :=
  match a, b with
  | .str s, .str t => s == t
  | .num p, .num q => p = q
  | .bool x, .bool y => x == y
  | .null, .null => true
  | .bool x, .num q => (if x then (1 : ℚ) else 0) = q
  | .num q, .bool x => q = (if x then (1 : ℚ) else 0)
  | _, _ => false

/-- Whether a JSON value is usable as a Python dict key; lists and dicts are
unhashable and raise `TypeError` on assignment. -/
def jhashable (a : Json) : Bool :=
  match a with
  | .arr _ => false
  | .obj _ => false
  | _ => true

/-- Python dict assignment `d[k] = v`: overwrite in place when the key is
present, append a fresh binding otherwise. -/
def dictInsert (d : List (Json × ℚ)) (k : Json) (v : ℚ) : List (Json × ℚ) :=
  if d.any (fun p => jkeyEq p.1 k) then d.map (fun p => if jkeyEq p.1 k then (p.1, v) else p)
  else d ++ [(k, v)]

/-- The `for container in pod_id["containers"]` loop body of
`get_pod_metrics`, run inside one `try`: the first entry whose name or
`cpu.usageNanoCores` lookup raises, whose usage is not a number, or whose
name is unhashable, aborts the loop, keeping the bindings accumulated so
far. -/
def parseContainers : List Json → List (Json × ℚ) → List (Json × ℚ)
  | [], acc => acc
  | c :: rest, acc =>
    match cpuLookup c, c.index "name" with
    | some v, some nm =>
      match v.asNum, jhashable nm with
      | .ok q, true => parseContainers rest (dictInsert acc nm (to_cores q))
      | _, _ => acc
    | _, _ => acc

/-- The `pod_id["containers"]` access: `some` the element list when the field
is present and a JSON array; `none` when the access raises or the value
cannot be iterated as container records (both are caught by the same
handler in `get_pod_metrics`, leaving the mapping empty). -/
def containersList (p : Json) : Option (List Json) :=
  match p.index "containers" with
  | some (.arr xs) => some xs
  | _ => none

/-- The container mapping built by `get_pod_metrics`. -/
def get_container_map (p : Json) : List (Json × ℚ) :=
  match containersList p with
  | some xs => parseContainers xs []
  | none => []

/-- The tuple returned by `KubeletCollector.get_pod_metrics`
(`nspace` models the Python variable `namespace`). -/
structure PodMetrics where
  name : Json
  nspace : Json
  used_bytes : Json
  usage_cores : ℚ
  container_usage_cores : List (Json × ℚ)

/-- Function `KubeletCollector.get_pod_metrics`.  `pod_id['podRef']['name']` and
`...['namespace']` are unguarded: their failure raises.  The
ephemeral-storage and cpu chains each sit in their own `try`, defaulting to
`0`.  The container loop sits in a third `try`.  `to_cores` is applied to
the pod-level figure in the `return` statement, outside every `try`, so a
present non-numeric `usageNanoCores` raises `TypeError`. -/
def get_pod_metrics (pod_id : Json) : Except PyErr PodMetrics :=
  match (pod_id.index "podRef").bind (fun r => r.index "name"),
        (pod_id.index "podRef").bind (fun r => r.index "namespace") with
  | some name, some nsp =>
    let used_bytes := (storageLookup pod_id).getD (.num 0)
    let usage_nano := (cpuLookup pod_id).getD (.num 0)
    let cmap := get_container_map pod_id
    match usage_nano.asNum with
    | .ok q => .ok ⟨name, nsp, used_bytes, to_cores q, cmap⟩
    | .error e => .error e
  | _, _ => .error .keyError

/-- A node status condition, as attribute access on the typed Kubernetes
client object `x.type` / `x.status`. -/
structure Condition where
  type : String
  status : String
deriving DecidableEq

/-- A node from `list_node().items`: `metadata.name` and
`status.conditions` are the only attributes the collector reads. -/
structure Node where
  name : String
  conditions : List Condition
deriving DecidableEq

/-- Outcome of the HTTPS GET issued by `get_node_info` for one node:
`requests.get` raises `ConnectTimeout`, raises some other exception, or
returns a response with a status code and a body (`none` when the body is
not valid JSON, so that `response.json()` raises). -/
inductive FetchOutcome where
  | connectTimeout : FetchOutcome
  | otherError : FetchOutcome
  | response (status : Nat) (body : Option Json) : FetchOutcome

/-- Function `KubeletCollector.get_node_info`.  The `except requests.ConnectTimeout`
clause only logs: control falls through to `return response.json()` with
the local `response` never assigned, raising `UnboundLocalError`.  The
`except Exception` clause returns `None`.  On a response,
`response.json()` is evaluated outside the `try`, so a non-JSON body
raises; the status code is never inspected. -/
def get_node_info (fetch : String → FetchOutcome) (node_name : String) :
    Except PyErr (Option Json) :=
  match fetch node_name with
  | .connectTimeout => .error .unboundLocal
  | .otherError => .ok none
  | .response _ body =>
    match body with
    | some j => .ok (some j)
    | none => .error .jsonDecode

/-- One sample appended to a `GaugeMetricFamily` by `add_metric`:
the label values and the value, both as passed. -/
structure Sample where
  labels : List Json
  value : Json

/-- The three `GaugeMetricFamily` objects
(`ephemeral_storage_metric`, `pod_cpu_usage_metric`,
`container_cpu_usage_metric`) as their lists of accumulated samples. -/
structure Sinks where
  eph : List Sample
  podCpu : List Sample
  ctrCpu : List Sample

/-- Freshly constructed gauge families, as in `__init__`. -/
def emptySinks : Sinks := ⟨[], [], []⟩

/-- The `for pod in node_info['pods']` loop of `scrape_node_metrics`: each
pod that parses appends one ephemeral-storage sample, one pod-CPU sample
and one container-CPU sample per container entry; a pod whose parse raises
aborts the loop with that exception, keeping earlier appends. -/
def emitPods (node_name : String) : List Json → Sinks → Sinks × Option PyErr
  | [], s => (s, none)
  | p :: rest, s =>
    match get_pod_metrics p with
    | .error e => (s, some e)
    | .ok r =>
      let labels := [.str node_name, r.nspace, r.name]
      emitPods node_name rest
        ⟨s.eph ++ [⟨labels, r.used_bytes⟩],
         s.podCpu ++ [⟨labels, .num r.usage_cores⟩],
         s.ctrCpu ++ r.container_usage_cores.map (fun cv => ⟨labels ++ [cv.1], .num cv.2⟩)⟩

/-- The readiness test of `scrape_node_metrics`: filter the condition list
to entries of type `"Ready"` and test the status of the first one. -/
def readyCheck (conds : List Condition) : Bool :=
  match conds.filter (fun c => c.type == "Ready") with
  | [] => false
  | c :: _ => c.status == "True"

/-- Function `KubeletCollector.scrape_node_metrics`, as the sink transformation of
one per-node unit of work plus its outcome (`some e` when the unit raised
`e`, which the future then re-raises at the join). -/
def scrape_node_metrics (fetch : String → FetchOutcome) (s : Sinks) (node : Node) :
    Sinks × Option PyErr :=
  if readyCheck node.conditions then
    match get_node_info fetch node.name with
    | .error e => (s, some e)
    | .ok none => (s, none)
    | .ok (some info) =>
      match info.contains "pods" with
      | .error e => (s, some e)
      | .ok false => (s, none)
      | .ok true =>
        match info.index "pods" with
        | some (.arr pods) => emitPods node.name pods s
        | some (.str "") => (s, none)
        | some (.obj []) => (s, none)
        | some _ => (s, some .typeError)
        | none => (s, some .typeError)
  else (s, none)

/-- The collector's cross-cycle mutable state: `self.futures` (as each
submitted unit's outcome) and the three gauge families, all created once in
`__init__` and never reset. -/
structure CollectorState where
  futures : List (Option PyErr)
  sinks : Sinks

/-- The collector as constructed by `__init__`. -/
def initState : CollectorState := ⟨[], emptySinks⟩

/-- Run the submitted per-node units in submission order, threading the
shared sinks and recording each unit's outcome. -/
def runNodes (fetch : String → FetchOutcome) (s : Sinks) :
    List Node → Sinks × List (Option PyErr)
  | [] => (s, [])
  | n :: rest =>
    let step := scrape_node_metrics fetch s n
    let done := runNodes fetch step.1 rest
    (done.1, step.2 :: done.2)

/-- The `for future in self.futures: future.result()` join: the first
stored exception is re-raised. -/
def firstErr : List (Option PyErr) → Option PyErr
  | [] => none
  | some e :: _ => some e
  | none :: rest => firstErr rest

/-- Function `KubeletCollector.collect`.  `ThreadPoolExecutor(max_workers=0)` raises
`ValueError` when the node list is empty.  Otherwise every submitted unit
runs (mutating the shared sinks), the new futures are appended to the
retained `self.futures` list, the join re-raises the first stored
exception, and on success the three gauge families are yielded as they now
stand. -/
def collect (fetch : String → FetchOutcome) (st : CollectorState) (nodes : List Node) :
    CollectorState × Except PyErr (List Sample × List Sample × List Sample) :=
  if nodes.isEmpty then (st, .error .valueError)
  else
    let run := runNodes fetch st.sinks nodes
    let st' : CollectorState := ⟨st.futures ++ run.2, run.1⟩
    match firstErr st'.futures with
    | some e => (st', .error e)
    | none => (st', .ok (run.1.eph, run.1.podCpu, run.1.ctrCpu))

/-! Concrete input builders and inputs used by the theorems below. -/

/-- A well-formed container record of the summary payload. -/
def mkCtr (c : String × ℚ) : Json :=
  .obj [("name", .str c.1), ("cpu", .obj [("usageNanoCores", .num c.2)])]

/-- A fully populated pod record of the summary payload. -/
def mkPod (nm nsp : String) (used nano : ℚ) (ctrs : List (String × ℚ)) : Json :=
  .obj [("podRef", .obj [("name", .str nm), ("namespace", .str nsp)]),
        ("ephemeral-storage", .obj [("usedBytes", .num used)]),
        ("cpu", .obj [("usageNanoCores", .num nano)]),
        ("containers", .arr (ctrs.map mkCtr))]

/-- A node whose first `Ready` condition entry has status `"True"`. -/
def readyNode (nm : String) : Node := ⟨nm, [⟨"Ready", "True"⟩]⟩

/-- Whether a container entry survives one iteration of the container loop
(both lookups succeed, the usage is numeric, the name is hashable). -/
def ctrOk (c : Json) : Bool :=
  match cpuLookup c, c.index "name" with
  | some v, some nm =>
    match v.asNum, jhashable nm with
    | .ok _, true => true
    | _, _ => false
  | _, _ => false

/-- Componentwise concatenation of sink contents, used to state that each
unit of work only ever appends to the shared gauge families. -/
def sappend (a b : Sinks) : Sinks :=
  ⟨a.eph ++ b.eph, a.podCpu ++ b.podCpu, a.ctrCpu ++ b.ctrCpu⟩

/-- A one-pod summary for a reachable node. -/
def c1_summary : Json :=
  .obj [("pods", .arr [mkPod "p1" "default" 100 500000000 [("c1", 250000000)]])]

/-- A cluster where `node-ok` answers and every other node's fetch raises
`requests.ConnectTimeout`. -/
def c1_fetch : String → FetchOutcome :=
  fun nname => if nname == "node-ok" then .response 200 (some c1_summary) else .connectTimeout

/-- A pod record with no `podRef` key at all. -/
def c2_badPod : Json := .obj [("cpu", .obj [("usageNanoCores", .num 5)])]

/-- A summary whose second pod lacks `podRef`, with a valid sibling on each
side. -/
def c2_summary : Json :=
  .obj [("pods", .arr [mkPod "good-a" "default" 10 100000000 [],
                       c2_badPod,
                       mkPod "good-b" "default" 20 200000000 []])]

/-- Every node returns `c2_summary`. -/
def c2_fetch : String → FetchOutcome := fun _ => .response 200 (some c2_summary)

/-- A single Ready node with a one-pod, one-container summary. -/
def c4_node : Node := ⟨"n1", [⟨"Ready", "True"⟩]⟩

/-- The summary served to `c4_node` on every cycle. -/
def c4_summary : Json :=
  .obj [("pods", .arr [mkPod "p1" "default" 5 1000000000 [("c1", 500000000)]])]

/-- An unchanged cluster: the same summary on every fetch. -/
def c4_fetch : String → FetchOutcome := fun _ => .response 200 (some c4_summary)

/-- The first scrape cycle against the unchanged cluster. -/
def c4_first : CollectorState × Except PyErr (List Sample × List Sample × List Sample) :=
  collect c4_fetch initState [c4_node]

/-- The second scrape cycle, run on the collector state the first left
behind. -/
def c4_second : CollectorState × Except PyErr (List Sample × List Sample × List Sample) :=
  collect c4_fetch c4_first.1 [c4_node]

/-- The three series the first `c4` cycle yields. -/
def c4_out1 : List Sample × List Sample × List Sample :=
  ([⟨[.str "n1", .str "default", .str "p1"], .num 5⟩],
   [⟨[.str "n1", .str "default", .str "p1"], .num (to_cores 1000000000)⟩],
   [⟨[.str "n1", .str "default", .str "p1", .str "c1"], .num (to_cores 500000000)⟩])

/-- A pod record whose `ephemeral-storage.usedBytes` is present but is a
string, with a valid CPU figure. -/
def c6_pod : Json :=
  .obj [("podRef", .obj [("name", .str "p"), ("namespace", .str "ns")]),
        ("ephemeral-storage", .obj [("usedBytes", .str "abc")]),
        ("cpu", .obj [("usageNanoCores", .num 2000000000)])]

/-- A pod record with valid identity and CPU but no `ephemeral-storage`. -/
def c6w_pod : Json :=
  .obj [("podRef", .obj [("name", .str "w"), ("namespace", .str "d")]),
        ("cpu", .obj [("usageNanoCores", .num 3000000000)])]

/-- A pod record with identity, storage and CPU but no `containers` key. -/
def c7_pod : Json :=
  .obj [("podRef", .obj [("name", .str "p7"), ("namespace", .str "ns7")]),
        ("ephemeral-storage", .obj [("usedBytes", .num 42)]),
        ("cpu", .obj [("usageNanoCores", .num 100)])]

/-- An HTTP error document: valid JSON, no `pods` key. -/
def c9_body : Json := .obj [("message", .str "Forbidden")]

/-- Every fetch returns status 403 with the error document as body. -/
def c9_fetch : String → FetchOutcome := fun _ => .response 403 (some c9_body)

/-- A well-formed container entry. -/
def c10_good1 : Json := .obj [("name", .str "c1"), ("cpu", .obj [("usageNanoCores", .num 100)])]

/-- A container entry with no `cpu` key. -/
def c10_bad : Json := .obj [("name", .str "c2")]

/-- A second well-formed container entry, listed after the malformed one. -/
def c10_good2 : Json := .obj [("name", .str "c3"), ("cpu", .obj [("usageNanoCores", .num 300)])]

/-! Theorems. -/

/-- The container loop maps a list of well-formed container records with
pairwise distinct names to the corresponding association list, provided no
name is already bound in the accumulator. -/
theorem parseContainers_mkCtr (ctrs : List (String × ℚ)) (acc : List (Json × ℚ))
    (hacc : ∀ c ∈ ctrs, acc.any (fun p => jkeyEq p.1 (Json.str c.1)) = false)
    (hnd : (ctrs.map Prod.fst).Nodup) :
    parseContainers (ctrs.map mkCtr) acc =
      acc ++ ctrs.map (fun c => (Json.str c.1, to_cores c.2)) := by
  induction ctrs generalizing acc with
  | nil => simp [parseContainers]
  | cons c rest ih =>
    rw [List.map_cons] at hnd
    obtain ⟨hnotin, hnd'⟩ := List.nodup_cons.mp hnd
    have h1 : acc.any (fun p => jkeyEq p.1 (Json.str c.1)) = false := hacc c (by simp)
    have step : parseContainers ((c :: rest).map mkCtr) acc
        = parseContainers (rest.map mkCtr) (dictInsert acc (Json.str c.1) (to_cores c.2)) := rfl
    have hins : dictInsert acc (Json.str c.1) (to_cores c.2)
        = acc ++ [(Json.str c.1, to_cores c.2)] := by
      unfold dictInsert
      rw [h1]
      simp
    rw [step, hins, ih]
    · simp
    · intro d hd
      have hdacc := hacc d (List.mem_cons_of_mem _ hd)
      have hne : (c.1 == d.1) = false := by
        have hccd : c.1 ≠ d.1 := fun hcd => hnotin (hcd ▸ List.mem_map_of_mem Prod.fst hd)
        simpa using hccd
      rw [List.any_append, hdacc]
      simp only [Bool.false_or, List.any_cons, List.any_nil, Bool.or_false]
      exact hne
    · exact hnd'

/-- Claim C5: for every nano-core input `n ≥ 0`, `to_cores n` equals
`n / 1000000000` exactly, and `get_pod_metrics` applies this same
conversion uniformly to the pod-level CPU figure and to every
container-level CPU figure. -/
theorem c5_to_cores_uniform (n : ℚ) (hn : 0 ≤ n)
    (nm nsp : String) (used nano : ℚ) (ctrs : List (String × ℚ))
    (hnd : (ctrs.map Prod.fst).Nodup) :
    to_cores n = n / 1000000000 ∧
    get_pod_metrics (mkPod nm nsp used nano ctrs) =
      .ok ⟨.str nm, .str nsp, .num used, to_cores nano,
           ctrs.map (fun c => (Json.str c.1, to_cores c.2))⟩ := by
  refine ⟨rfl, ?_⟩
  have h := parseContainers_mkCtr ctrs [] (fun c hc => rfl) hnd
  calc get_pod_metrics (mkPod nm nsp used nano ctrs)
      = .ok ⟨.str nm, .str nsp, .num used, to_cores nano,
             parseContainers (ctrs.map mkCtr) []⟩ := rfl
    _ = _ := by rw [h]; simp

/-- Witness for C5 at `n = 500000000` with one pod carrying one
container. -/
theorem c5_witness :
    to_cores 500000000 = 500000000 / 1000000000 ∧
    get_pod_metrics (mkPod "p" "d" 7 1000000000 [("c1", 500000000)]) =
      .ok ⟨.str "p", .str "d", .num 7, to_cores 1000000000,
           [(("c1" : String), (500000000 : ℚ))].map (fun c => (Json.str c.1, to_cores c.2))⟩ :=
  c5_to_cores_uniform 500000000 (by norm_num) "p" "d" 7 1000000000 [("c1", 500000000)] (by simp)

/-- A container entry that fails the loop's lookups aborts the loop,
keeping the accumulator built so far. -/
theorem parseContainers_stop (c : Json) (rest : List Json) (acc : List (Json × ℚ))
    (h : ctrOk c = false) : parseContainers (c :: rest) acc = acc := by
  unfold parseContainers
  unfold ctrOk at h
  cases h1 : cpuLookup c with
  | none => cases h2 : c.index "name" <;> rfl
  | some v =>
    cases h2 : c.index "name" with
    | none => rfl
    | some nm =>
      cases h3 : v.asNum with
      | error e => simp [h3]
      | ok q =>
        cases h4 : jhashable nm with
        | false => simp [h3, h4]
        | true => simp [h1, h2, h3, h4] at h

/-- A container entry that passes the loop's lookups contributes one dict
assignment and the loop continues with the rest of the list. -/
theorem parseContainers_step (c : Json) (h : ctrOk c = true) :
    ∃ nm q, c.index "name" = some nm ∧
      ∀ (rest : List Json) (acc : List (Json × ℚ)),
        parseContainers (c :: rest) acc = parseContainers rest (dictInsert acc nm (to_cores q)) := by
  unfold ctrOk at h
  cases h1 : cpuLookup c with
  | none => simp [h1] at h
  | some v =>
    cases h2 : c.index "name" with
    | none => simp [h1, h2] at h
    | some nm =>
      cases h3 : v.asNum with
      | error e => simp [h1, h2, h3] at h
      | ok q =>
        cases h4 : jhashable nm with
        | false => simp [h1, h2, h3, h4] at h
        | true =>
          refine ⟨nm, q, rfl, fun rest acc => ?_⟩
          simp only [parseContainers, h1, h2, h3, h4]

/-- A dict assignment never shrinks the dict. -/
theorem dictInsert_length (d : List (Json × ℚ)) (k : Json) (v : ℚ) :
    d.length ≤ (dictInsert d k v).length := by
  unfold dictInsert
  split
  · simp
  · simp

/-- The container loop never drops accumulated bindings. -/
theorem parseContainers_length (l : List Json) (acc : List (Json × ℚ)) :
    acc.length ≤ (parseContainers l acc).length := by
  induction l generalizing acc with
  | nil => simp [parseContainers]
  | cons c rest ih =>
    cases hc : ctrOk c with
    | false => rw [parseContainers_stop c rest acc hc]
    | true =>
      obtain ⟨nm, q, hnm, hstep⟩ := parseContainers_step c hc
      rw [hstep]
      exact le_trans (dictInsert_length acc nm (to_cores q)) (ih _)

/-- Claim C10: a containers list whose entries are well formed up to a
malformed entry partway through yields the partial mapping of the
well-formed prefix — every earlier container keeps its entry (in
particular the mapping is nonempty when the prefix is), and the malformed
entry and everything after it are dropped. -/
theorem c10_container_cutoff (pre : List Json) (bad : Json) (post : List Json)
    (hpre : pre.all ctrOk = true) (hbad : ctrOk bad = false) :
    parseContainers (pre ++ bad :: post) [] = parseContainers pre [] ∧
    (pre ≠ [] → parseContainers pre [] ≠ []) := by
  constructor
  · have key : ∀ (l : List Json) (acc : List (Json × ℚ)), l.all ctrOk = true →
        parseContainers (l ++ bad :: post) acc = parseContainers l acc := by
      intro l
      induction l with
      | nil => exact fun acc _ => parseContainers_stop bad post acc hbad
      | cons a tail ih =>
        intro acc hall
        obtain ⟨ha, htail⟩ : ctrOk a = true ∧ tail.all ctrOk = true := by simpa using hall
        obtain ⟨nm, q, hnm, hstep⟩ := parseContainers_step a ha
        rw [List.cons_append, hstep, hstep, ih _ htail]
    exact key pre [] hpre
  · intro hne hcontra
    cases pre with
    | nil => exact hne rfl
    | cons a tail =>
      have ha : ctrOk a = true := by
        obtain ⟨ha, _⟩ : ctrOk a = true ∧ tail.all ctrOk = true := by simpa using hpre
        exact ha
      obtain ⟨nm, q, hnm, hstep⟩ := parseContainers_step a ha
      rw [hstep] at hcontra
      have h2 := parseContainers_length tail (dictInsert [] nm (to_cores q))
      rw [hcontra] at h2
      have hd : dictInsert [] nm (to_cores q) = [(nm, to_cores q)] := rfl
      rw [hd] at h2
      simp at h2

/-- Witness for C10: the first, well-formed container keeps its entry; the
entry missing `cpu` and the well-formed entry after it are dropped. -/
theorem c10_witness :
    parseContainers ([c10_good1] ++ c10_bad :: [c10_good2]) [] = parseContainers [c10_good1] [] ∧
    ([c10_good1] ≠ [] → parseContainers [c10_good1] [] ≠ []) :=
  c10_container_cutoff [c10_good1] c10_bad [c10_good2] rfl rfl

/-- Counterexample to claim C8: a condition list holding a `Ready` entry
with status `"False"` before a `Ready` entry with status `"True"` does
contain an entry of type `"Ready"` with status exactly `"True"`, yet the
code inspects only the first `Ready` entry, skips the node, and
contributes zero series. -/
theorem c8_counterexample :
    (([⟨"Ready", "False"⟩, ⟨"Ready", "True"⟩] : List Condition).any
        (fun c => c.type == "Ready" && c.status == "True")) = true ∧
    readyCheck [⟨"Ready", "False"⟩, ⟨"Ready", "True"⟩] = false ∧
    scrape_node_metrics (fun _ => .connectTimeout) emptySinks
        ⟨"n1", [⟨"Ready", "False"⟩, ⟨"Ready", "True"⟩]⟩ = (emptySinks, none) :=
  ⟨rfl, rfl, rfl⟩

/-- Claim C8 (amended): a node is scraped iff its status-condition list has
at least one entry of type `"Ready"` and the first such entry has status
exactly `"True"`; a node failing this test is left untouched — no fetch,
no samples — so it contributes zero series to all three collections. -/
theorem c8_amended :
    (∀ conds : List Condition,
       readyCheck conds = true ↔
         ∃ c, (conds.filter (fun x => x.type == "Ready")).head? = some c ∧
              c.status = "True") ∧
    (∀ (fetch : String → FetchOutcome) (s : Sinks) (node : Node),
       readyCheck node.conditions = false →
       scrape_node_metrics fetch s node = (s, none)) := by
  constructor
  · intro conds
    unfold readyCheck
    cases h : conds.filter (fun x => x.type == "Ready") with
    | nil => simp
    | cons c rest => simp
  · intro fetch s node h
    unfold scrape_node_metrics
    rw [h]
    simp

/-- Witness for C8 (amended): a node whose only `Ready` entry has status
`"Unknown"` is left untouched. -/
theorem c8_witness :
    scrape_node_metrics (fun _ => .otherError) emptySinks ⟨"n2", [⟨"Ready", "Unknown"⟩]⟩ =
      (emptySinks, none) :=
  c8_amended.2 (fun _ => .otherError) emptySinks ⟨"n2", [⟨"Ready", "Unknown"⟩]⟩ rfl

/-- Claim C1 (code bug): the `except requests.ConnectTimeout` handler in
`get_node_info` logs but does not return, so control reaches
`return response.json()` with the local `response` never assigned and
raises `UnboundLocalError`.  The exception is re-raised by
`future.result()` and aborts the whole cycle: with one reachable node and
one timing-out node, `collect` raises instead of returning, losing even
the reachable node's series — which the third conjunct shows would have
been produced had the timing-out node been absent. -/
theorem c1_timeout_bug :
    get_node_info (fun _ => .connectTimeout) "node-bad" = .error .unboundLocal ∧
    (collect c1_fetch initState [readyNode "node-ok", readyNode "node-bad"]).2 =
      .error .unboundLocal ∧
    (collect c1_fetch initState [readyNode "node-ok"]).2.toOption.map
      (fun o => o.1.length) = some 1 :=
  ⟨rfl, rfl, rfl⟩

/-- Counterexample to claim C2: a Ready node whose summary holds a pod
record with no `podRef` between two valid pods.  `get_pod_metrics` raises
`KeyError`, the exception escapes the unit, the coordinator's join
re-raises it (`collect` returns an error, aborting the join), and the
sibling pod listed after the bad record is lost (only one ephemeral
sample was appended). -/
theorem c2_counterexample :
    (collect c2_fetch initState [readyNode "n1"]).2 = .error .keyError ∧
    (collect c2_fetch initState [readyNode "n1"]).1.sinks.eph.length = 1 :=
  ⟨rfl, rfl⟩

/-- Claim C2 (amended): a failure in an optional per-pod field stays inside
the pod unit — a pod with valid identity and every optional field missing
still contributes — but a pod record whose `podRef` name lookup fails
raises a `KeyError` that escapes its unit: the coordinator's join
re-raises it and `collect` aborts, rather than observing the unit as
having contributed nothing. -/
theorem c2_amended :
    (∀ nm nsp : String,
       get_pod_metrics (.obj [("podRef", .obj [("name", .str nm), ("namespace", .str nsp)])]) =
         .ok ⟨.str nm, .str nsp, .num 0, to_cores 0, []⟩) ∧
    (∀ (fetch : String → FetchOutcome) (node : Node) (body badPod : Json) (status : Nat),
       readyCheck node.conditions = true →
       fetch node.name = .response status (some body) →
       body.contains "pods" = .ok true →
       body.index "pods" = some (.arr [badPod]) →
       (badPod.index "podRef").bind (fun r => r.index "name") = none →
       (collect fetch initState [node]).2 = .error .keyError) := by
  constructor
  · intro nm nsp
    rfl
  · intro fetch node body badPod status hr hf hc hp hb
    have hgp : get_pod_metrics badPod = .error .keyError := by
      unfold get_pod_metrics
      rw [hb]
    have hsc : scrape_node_metrics fetch initState.sinks node =
        (initState.sinks, some .keyError) := by
      unfold scrape_node_metrics
      rw [hr]
      simp only [get_node_info, hf, hc, hp, if_true]
      simp only [emitPods, hgp]
    unfold collect
    simp [runNodes, hsc, firstErr]

/-- Witness for C2 (amended): a Ready node serving a single pod record with
no `podRef` makes `collect` return a `KeyError` instead of completing. -/
theorem c2_witness :
    (collect (fun _ => .response 404 (some (.obj [("pods", .arr [.obj []])]))) initState
        [readyNode "m1"]).2 = .error .keyError :=
  c2_amended.2 (fun _ => .response 404 (some (.obj [("pods", .arr [.obj []])])))
    (readyNode "m1") (.obj [("pods", .arr [.obj []])]) (.obj []) 404 rfl rfl rfl rfl rfl

/-- A node whose fetch raises a non-timeout exception is handled: the unit
logs, contributes nothing and stores no exception. -/
theorem scrape_otherError (s : Sinks) (n : Node) :
    scrape_node_metrics (fun _ => .otherError) s n = (s, none) := by
  unfold scrape_node_metrics
  split <;> rfl

/-- Running every unit against unreachable nodes leaves the sinks unchanged
and stores only successful outcomes. -/
theorem runNodes_otherError (nodes : List Node) (s : Sinks) :
    runNodes (fun _ => .otherError) s nodes = (s, nodes.map (fun _ => none)) := by
  induction nodes with
  | nil => rfl
  | cons n rest ih => simp [runNodes, scrape_otherError, ih]

/-- A futures list holding no exception re-raises nothing. -/
theorem firstErr_replicate_none (k : Nat) :
    firstErr (List.replicate k none) = none := by
  induction k with
  | zero => rfl
  | succ n ih => simpa [List.replicate, firstErr] using ih

/-- Counterexample to claim C3: with an empty node list, `collect` raises
`ValueError` (from `ThreadPoolExecutor(max_workers=0)`) instead of
returning three empty metric collections. -/
theorem c3_counterexample :
    (collect (fun _ => .otherError) initState []).2 = .error .valueError :=
  rfl

/-- Claim C3 (amended): a scrape cycle against a nonempty node list in
which every node is unreachable with a non-timeout transport error
completes and returns three empty metric collections; an empty node list
instead makes `collect` raise `ValueError` while constructing the
zero-sized worker pool. -/
theorem c3_amended (nodes : List Node) (h : nodes ≠ []) :
    (collect (fun _ => .otherError) initState nodes).2 = .ok ([], [], []) ∧
    (∀ (fetch : String → FetchOutcome) (st : CollectorState),
       (collect fetch st []).2 = .error .valueError) := by
  refine ⟨?_, fun fetch st => rfl⟩
  cases nodes with
  | nil => exact absurd rfl h
  | cons a rest =>
    unfold collect
    simp [runNodes_otherError, firstErr, firstErr_replicate_none, initState, emptySinks]

/-- Witness for C3 (amended): two nodes, one Ready and one with no
conditions, both unreachable: the cycle completes with empty output. -/
theorem c3_witness :
    (collect (fun _ => .otherError) initState [readyNode "n0", ⟨"n1", []⟩]).2 =
      .ok ([], [], []) :=
  (c3_amended [readyNode "n0", ⟨"n1", []⟩] (by simp)).1

/-- Counterexample to claim C6: a pod whose `ephemeral-storage.usedBytes`
is present but malformed (a string): the record parses, but `used_bytes`
is the string passed through unchanged, not `0` as the claim requires for
a malformed ephemeral-storage field. -/
theorem c6_counterexample :
    (get_pod_metrics c6_pod).toOption.map (fun r => r.used_bytes) = some (.str "abc") ∧
    Json.str "abc" ≠ Json.num 0 :=
  ⟨rfl, fun hne => Json.noConfusion hne⟩

/-- Claim C6 (amended): the ephemeral-storage and CPU fields are defaulted
independently when their lookup *chains raise* (key absent or intermediate
value not a dict): a failing storage lookup yields `used_bytes = 0`
together with the correct cores for a present numeric `usageNanoCores`,
and a failing CPU lookup yields `usage_cores = to_cores 0 = 0` together
with the present storage value — which is passed through as-is, not
zeroed, even when malformed. -/
theorem c6_amended (p : Json) (nm nsp : Json)
    (hname : (p.index "podRef").bind (fun r => r.index "name") = some nm)
    (hns : (p.index "podRef").bind (fun r => r.index "namespace") = some nsp) :
    (∀ n : ℚ, storageLookup p = none → cpuLookup p = some (.num n) →
       get_pod_metrics p = .ok ⟨nm, nsp, .num 0, to_cores n, get_container_map p⟩) ∧
    (∀ v : Json, cpuLookup p = none → storageLookup p = some v →
       get_pod_metrics p = .ok ⟨nm, nsp, v, to_cores 0, get_container_map p⟩) ∧
    to_cores 0 = 0 := by
  refine ⟨?_, ?_, by norm_num [to_cores]⟩
  · intro n hs hc
    unfold get_pod_metrics
    rw [hname, hns, hs, hc]
    rfl
  · intro v hc hs
    unfold get_pod_metrics
    rw [hname, hns, hc, hs]
    rfl

/-- Witness for C6 (amended): a pod with no `ephemeral-storage` key and a
numeric CPU figure yields `used_bytes = 0` and the converted cores. -/
theorem c6_witness :
    get_pod_metrics c6w_pod =
      .ok ⟨.str "w", .str "d", .num 0, to_cores 3000000000, get_container_map c6w_pod⟩ :=
  (c6_amended c6w_pod (.str "w") (.str "d") rfl rfl).1 3000000000 rfl rfl

/-- Claim C7: a pod record whose containers list is absent (or not a list)
yields an empty container-CPU mapping — no fabricated per-container
entries — while the pod-level ephemeral-storage and CPU samples for that
pod are still appended by the node loop. -/
theorem c7_containers_missing (p : Json) (nm nsp : Json) (q : ℚ)
    (hname : (p.index "podRef").bind (fun r => r.index "name") = some nm)
    (hns : (p.index "podRef").bind (fun r => r.index "namespace") = some nsp)
    (hcpu : ((cpuLookup p).getD (.num 0)).asNum = .ok q)
    (hctr : containersList p = none) :
    get_pod_metrics p = .ok ⟨nm, nsp, (storageLookup p).getD (.num 0), to_cores q, []⟩ ∧
    (∀ (nn : String) (s : Sinks),
       emitPods nn [p] s =
         (⟨s.eph ++ [⟨[.str nn, nsp, nm], (storageLookup p).getD (.num 0)⟩],
           s.podCpu ++ [⟨[.str nn, nsp, nm], .num (to_cores q)⟩],
           s.ctrCpu⟩, none)) := by
  have hgp : get_pod_metrics p = .ok ⟨nm, nsp, (storageLookup p).getD (.num 0), to_cores q, []⟩ := by
    unfold get_pod_metrics
    rw [hname, hns]
    simp only [get_container_map, hctr, hcpu]
  refine ⟨hgp, fun nn s => ?_⟩
  simp [emitPods, hgp]

/-- Witness for C7: a pod with storage and CPU but no `containers` key
contributes exactly its two pod-level samples and no container sample. -/
theorem c7_witness :
    emitPods "node7" [c7_pod] emptySinks =
      (⟨emptySinks.eph ++ [⟨[.str "node7", .str "ns7", .str "p7"],
          (storageLookup c7_pod).getD (.num 0)⟩],
        emptySinks.podCpu ++ [⟨[.str "node7", .str "ns7", .str "p7"], .num (to_cores 100)⟩],
        emptySinks.ctrCpu⟩, none) :=
  (c7_containers_missing c7_pod (.str "p7") (.str "ns7") 100 rfl rfl rfl rfl).2 "node7" emptySinks

/-- Claim C9: `get_node_info` returns the parsed body of every response
without inspecting the HTTP status code — any status, including non-2xx,
with a valid JSON body yields that body — and such a node is skipped
downstream (unit untouched, no exception) when the returned document's
`pods` membership test is false. -/
theorem c9_status_ignored (fetch : String → FetchOutcome) (nm : String)
    (status : Nat) (body : Json)
    (hf : fetch nm = .response status (some body)) :
    get_node_info fetch nm = .ok (some body) ∧
    (∀ (s : Sinks) (conds : List Condition),
       readyCheck conds = true → body.contains "pods" = .ok false →
       scrape_node_metrics fetch s ⟨nm, conds⟩ = (s, none)) := by
  constructor
  · unfold get_node_info
    rw [hf]
  · intro s conds hr hp
    unfold scrape_node_metrics
    simp only [get_node_info, hf, hp, hr, if_true]

/-- Witness for C9: a 403 response with a JSON error document is returned
as the summary, and the Ready node is then skipped because the document
has no `pods` key. -/
theorem c9_witness :
    get_node_info c9_fetch "n9" = .ok (some c9_body) ∧
    scrape_node_metrics c9_fetch emptySinks ⟨"n9", [⟨"Ready", "True"⟩]⟩ = (emptySinks, none) :=
  ⟨(c9_status_ignored c9_fetch "n9" 403 c9_body rfl).1,
   (c9_status_ignored c9_fetch "n9" 403 c9_body rfl).2 emptySinks [⟨"Ready", "True"⟩] rfl rfl⟩

/-- Appending nothing to the sinks changes nothing. -/
theorem sappend_right_empty (s : Sinks) : sappend s emptySinks = s := by
  cases s
  simp [sappend, emptySinks]

/-- Prepending empty sinks changes nothing. -/
theorem sappend_left_empty (s : Sinks) : sappend emptySinks s = s := rfl

/-- Sink concatenation is associative. -/
theorem sappend_assoc (a b c : Sinks) :
    sappend (sappend a b) c = sappend a (sappend b c) := by
  simp [sappend, List.append_assoc]

/-- The pod loop only appends: its effect on arbitrary starting sinks is
its effect on empty sinks, concatenated on the right. -/
theorem emitPods_shift (nn : String) (pods : List Json) (s : Sinks) :
    emitPods nn pods s =
      (sappend s (emitPods nn pods emptySinks).1, (emitPods nn pods emptySinks).2) := by
  induction pods generalizing s with
  | nil => simp [emitPods, sappend_right_empty]
  | cons p rest ih =>
    cases hgp : get_pod_metrics p with
    | error e => simp [emitPods, hgp, sappend_right_empty]
    | ok r =>
      have hstep : ∀ t : Sinks, emitPods nn (p :: rest) t =
          emitPods nn rest
            ⟨t.eph ++ [⟨[.str nn, r.nspace, r.name], r.used_bytes⟩],
             t.podCpu ++ [⟨[.str nn, r.nspace, r.name], .num r.usage_cores⟩],
             t.ctrCpu ++ r.container_usage_cores.map
               (fun cv => ⟨[.str nn, r.nspace, r.name] ++ [cv.1], .num cv.2⟩)⟩ := by
        intro t
        simp [emitPods, hgp]
      conv_lhs => rw [hstep s, ih]
      conv_rhs => rw [hstep emptySinks, ih]
      simp [sappend, emptySinks, List.append_assoc]

/-- A per-node unit only appends to the shared sinks. -/
theorem scrape_shift (fetch : String → FetchOutcome) (s : Sinks) (n : Node) :
    scrape_node_metrics fetch s n =
      (sappend s (scrape_node_metrics fetch emptySinks n).1,
       (scrape_node_metrics fetch emptySinks n).2) := by
  unfold scrape_node_metrics
  split
  · (repeat' split) <;> first
      | exact emitPods_shift _ _ _
      | simp [sappend_right_empty]
  · simp [sappend_right_empty]

/-- A cycle's worth of units only appends to the shared sinks, and the
recorded outcomes do not depend on the starting sink contents. -/
theorem runNodes_shift (fetch : String → FetchOutcome) (nodes : List Node) (s : Sinks) :
    runNodes fetch s nodes =
      (sappend s (runNodes fetch emptySinks nodes).1, (runNodes fetch emptySinks nodes).2) := by
  induction nodes generalizing s with
  | nil => simp [runNodes, sappend_right_empty]
  | cons n rest ih =>
    simp only [runNodes]
    conv_lhs => rw [scrape_shift fetch s n, ih]
    conv_rhs => rw [ih]
    simp [sappend_assoc, sappend_left_empty, sappend_right_empty]

/-- Joining two exception-free futures lists re-raises nothing. -/
theorem firstErr_append (xs ys : List (Option PyErr))
    (hx : firstErr xs = none) (hy : firstErr ys = none) :
    firstErr (xs ++ ys) = none := by
  induction xs with
  | nil => simpa using hy
  | cons x rest ih =>
    cases x with
    | some e => simp [firstErr] at hx
    | none =>
      simp only [firstErr] at hx
      simpa [firstErr] using ih hx

/-- Running `collect` on a nonempty node list whose join finds a stored
exception re-raises it. -/
theorem collect_cons_err (fetch : String → FetchOutcome) (st : CollectorState)
    (a : Node) (l : List Node) (e : PyErr)
    (h : firstErr (st.futures ++ (runNodes fetch st.sinks (a :: l)).2) = some e) :
    collect fetch st (a :: l) =
      (⟨st.futures ++ (runNodes fetch st.sinks (a :: l)).2,
        (runNodes fetch st.sinks (a :: l)).1⟩, .error e) := by
  unfold collect
  simp [h]

/-- Running `collect` on a nonempty node list whose join finds no stored
exception yields the accumulated gauge families. -/
theorem collect_cons_ok (fetch : String → FetchOutcome) (st : CollectorState)
    (a : Node) (l : List Node)
    (h : firstErr (st.futures ++ (runNodes fetch st.sinks (a :: l)).2) = none) :
    collect fetch st (a :: l) =
      (⟨st.futures ++ (runNodes fetch st.sinks (a :: l)).2,
        (runNodes fetch st.sinks (a :: l)).1⟩,
       .ok ((runNodes fetch st.sinks (a :: l)).1.eph,
            (runNodes fetch st.sinks (a :: l)).1.podCpu,
            (runNodes fetch st.sinks (a :: l)).1.ctrCpu)) := by
  unfold collect
  simp [h]

/-- A cycle starting from retained collector state appends the same deltas
again: the yielded families are the retained contents extended by one more
cycle's worth of samples. -/
theorem collect_second (fetch : String → FetchOutcome) (a : Node) (l : List Node)
    (fut : List (Option PyErr)) (s0 : Sinks)
    (hfe : firstErr (runNodes fetch emptySinks (a :: l)).2 = none)
    (hfut : firstErr fut = none) :
    collect fetch ⟨fut, s0⟩ (a :: l) =
      (⟨fut ++ (runNodes fetch emptySinks (a :: l)).2,
        sappend s0 (runNodes fetch emptySinks (a :: l)).1⟩,
       .ok ((sappend s0 (runNodes fetch emptySinks (a :: l)).1).eph,
            (sappend s0 (runNodes fetch emptySinks (a :: l)).1).podCpu,
            (sappend s0 (runNodes fetch emptySinks (a :: l)).1).ctrCpu)) := by
  have hr : runNodes fetch (⟨fut, s0⟩ : CollectorState).sinks (a :: l) =
      (sappend s0 (runNodes fetch emptySinks (a :: l)).1,
       (runNodes fetch emptySinks (a :: l)).2) :=
    runNodes_shift fetch (a :: l) s0
  have hfe2 : firstErr ((⟨fut, s0⟩ : CollectorState).futures ++
      (runNodes fetch (⟨fut, s0⟩ : CollectorState).sinks (a :: l)).2) = none := by
    rw [hr]
    exact firstErr_append _ _ hfut hfe
  rw [collect_cons_ok fetch ⟨fut, s0⟩ a l hfe2, hr]

/-- Counterexample to claim C4: one Ready node with an unchanged one-pod
summary.  The first cycle yields one ephemeral-storage series; the second
cycle yields that series twice (the first cycle's sample is retained in
the gauge family and a duplicate is appended), and the pending-work list
has accumulated both cycles' futures — nothing was created fresh. -/
theorem c4_counterexample :
    c4_first.2.toOption.map (fun o => o.1.length) = some 1 ∧
    c4_second.2.toOption.map (fun o => o.1.length) = some 2 ∧
    c4_second.1.futures.length = 2 :=
  ⟨rfl, rfl, rfl⟩

/-- Claim C4 (amended): the three metric collections and the futures list
are created once at collector construction and retained across cycles, so
a second `collect` against an unchanged cluster re-emits every series of
the first cycle alongside its own: each output collection of the second
cycle is the first cycle's collection concatenated with itself (hence not
label-for-label identical whenever the first cycle produced anything),
and the futures list doubles. -/
theorem c4_amended (fetch : String → FetchOutcome) (nodes : List Node)
    (st1 : CollectorState) (out1 : List Sample × List Sample × List Sample)
    (h : collect fetch initState nodes = (st1, .ok out1)) :
    (collect fetch st1 nodes).2 =
      .ok (out1.1 ++ out1.1, out1.2.1 ++ out1.2.1, out1.2.2 ++ out1.2.2) ∧
    (collect fetch st1 nodes).1.futures.length = 2 * st1.futures.length ∧
    (out1.1 ≠ [] → out1.1 ++ out1.1 ≠ out1.1) := by
  cases nodes with
  | nil => simp [collect] at h
  | cons a l =>
    cases hfe : firstErr (runNodes fetch emptySinks (a :: l)).2 with
    | some e =>
      have hfe' : firstErr (initState.futures ++
          (runNodes fetch initState.sinks (a :: l)).2) = some e := hfe
      rw [collect_cons_err fetch initState a l e hfe'] at h
      simp at h
    | none =>
      have hfe' : firstErr (initState.futures ++
          (runNodes fetch initState.sinks (a :: l)).2) = none := hfe
      rw [collect_cons_ok fetch initState a l hfe'] at h
      injection h with h1 h2
      injection h2 with h3
      subst h1
      subst h3
      rw [collect_second fetch a l
        (initState.futures ++ (runNodes fetch initState.sinks (a :: l)).2)
        (runNodes fetch initState.sinks (a :: l)).1 hfe hfe']
      refine ⟨rfl, ?_, ?_⟩
      · show ((runNodes fetch emptySinks (a :: l)).2 ++
            (runNodes fetch emptySinks (a :: l)).2).length =
          2 * (runNodes fetch emptySinks (a :: l)).2.length
        simp [Nat.two_mul]
      · intro hne1 hcontra
        have hlen := congrArg List.length hcontra
        rw [List.length_append] at hlen
        have hzero : ((runNodes fetch initState.sinks (a :: l)).1.eph,
            (runNodes fetch initState.sinks (a :: l)).1.podCpu,
            (runNodes fetch initState.sinks (a :: l)).1.ctrCpu).1.length = 0 := by
          omega
        exact hne1 (List.length_eq_zero.mp hzero)

/-- Witness for C4 (amended) at the concrete one-node cluster: the second
cycle returns each collection doubled. -/
theorem c4_amended_witness :
    (collect c4_fetch c4_first.1 [c4_node]).2 =
      .ok (c4_out1.1 ++ c4_out1.1, c4_out1.2.1 ++ c4_out1.2.1, c4_out1.2.2 ++ c4_out1.2.2) :=
  (c4_amended c4_fetch [c4_node] c4_first.1 c4_out1 rfl).1

end KubeletStats
